import Mathlib

/-!
Verification of `scripts/generate_sphere.py`.

The script constructs a UV sphere mesh via the external geometry library
(`trimesh.creation.uv_sphere`), exports it to a GLB file, and prints a
confirmation line.  The `__main__` block ensures the directory `public`
exists (creating it when `os.path.exists` reports it absent) and then calls
`generate_sphere_glb` on `public/360_sphere.glb`.

Embedding choices:
* Filesystem paths are lists of components (`["public", "360_sphere.glb"]`
  stands for `public/360_sphere.glb`); `os.path.join` is list append.
* The filesystem is an association list from paths to entries, where an
  entry is a directory or a file holding the exported mesh.
* Observable actions (existence check, `makedirs`, file export, `print`)
  are recorded in an event trace so that ordering claims are statable.
* A run either returns the final state or raises, carrying the state at the
  raise point (Python exceptions propagate, leaving prior effects done).
-/

/-- A filesystem path, as its list of components. -/
abbrev FPath := List String

/-- Render a path with `/` separators, as `os.path.join` produces it. -/
def pathToString : FPath → String
  | [] => ""
  | [a] => a
  | a :: rest => a ++ "/" ++ pathToString rest

/-- Modelled from the spec: the mesh built by the external geometry library
`trimesh.creation.uv_sphere` (not part of this repository) is treated as a
black box fully determined by its construction arguments: the radius and the
two angular subdivision counts `count=[count0, count1]`. -/
structure Mesh where
  radius : Int
  count0 : Nat
  count1 : Nat
deriving DecidableEq

/-- `trimesh.creation.uv_sphere(radius=radius, count=[count0, count1])`. -/
def uv_sphere (radius : Int) (count0 count1 : Nat) : Mesh :=
  ⟨radius, count0, count1⟩

/-- Modelled from the spec: vertex count of a UV sphere (a latitude/longitude
quad grid with merged poles), a function of the two resolution parameters. -/
def Mesh.vertexCount (m : Mesh) : Nat :=
  m.count0 * (m.count1 - 1) + 2

/-- Modelled from the spec: triangle count of a UV sphere, a function of the
two resolution parameters. -/
def Mesh.faceCount (m : Mesh) : Nat :=
  2 * m.count0 * (m.count1 - 1)

/-- A filesystem entry: a directory, or a file holding an exported mesh. -/
inductive Entry where
  | dir : Entry
  | file : Mesh → Entry
deriving DecidableEq

/-- The filesystem: an association list from paths to entries.  A newer
binding for a path shadows older ones (overwrite-on-export semantics). -/
abbrev FS := List (FPath × Entry)

/-- Look up the entry at a path (the most recent binding wins). -/
def fsLookup : FS → FPath → Option Entry
  | [], _ => none
  | (q, e) :: rest, p => if q = p then some e else fsLookup rest p

/-- Observable actions of the script, in program order. -/
inductive Event where
  | checkExists : FPath → Bool → Event
  | mkdir : FPath → Event
  | exportFile : FPath → Event
  | print : String → Event
deriving DecidableEq

/-- Errors the run can raise (from the filesystem, via the export step). -/
inductive Err where
  | fileNotFound : FPath → Err
  | notADirectory : FPath → Err
deriving DecidableEq

/-- Filesystem plus the trace of events performed so far. -/
structure IOState where
  fs : FS
  events : List Event
deriving DecidableEq

/-- Outcome of a run: normal return, or an exception propagating out with
the state at the raise point. -/
inductive PyResult where
  | ok : IOState → PyResult
  | raised : Err → IOState → PyResult
deriving DecidableEq

/-- `os.makedirs(p)`: create the directory `p` and any missing ancestors
(each missing prefix of the path becomes a directory). -/
def makedirs (p : FPath) (fs : FS) : FS :=
  (List.range p.length).foldl
    (fun acc i =>
      let q := p.take (i + 1)
      if (fsLookup acc q).isSome then acc else (q, Entry.dir) :: acc) fs

/-- `mesh.export(output_path)`: serialize the mesh to `output_path`.
Opening the file for writing requires the parent directory to exist as a
directory; a missing parent raises `FileNotFoundError`, a non-directory
parent raises `NotADirectoryError`.  An empty parent means the current
working directory, which exists. -/
def export_glb (m : Mesh) (output_path : FPath) (st : IOState) : PyResult :=
  let d := output_path.dropLast
  if d = [] then
    PyResult.ok ⟨(output_path, Entry.file m) :: st.fs,
      st.events ++ [Event.exportFile output_path]⟩
  else
    match fsLookup st.fs d with
    | some Entry.dir =>
        PyResult.ok ⟨(output_path, Entry.file m) :: st.fs,
          st.events ++ [Event.exportFile output_path]⟩
    | some (Entry.file _) => PyResult.raised (Err.notADirectory d) st
    | none => PyResult.raised (Err.fileNotFound d) st

/-- `generate_sphere_glb(output_path, radius=10, subdivisions=4)`:
build `uv_sphere(radius=radius, count=[64, 64])`, export it to
`output_path`, then print the confirmation line. -/
def generate_sphere_glb (output_path : FPath) (radius : Int)
    (subdivisions : Nat) (st : IOState) : PyResult :=
  let sphere := uv_sphere radius 64 64
  match export_glb sphere output_path st with
  | PyResult.raised e stE => PyResult.raised e stE
  | PyResult.ok st1 =>
      PyResult.ok ⟨st1.fs,
        st1.events ++ [Event.print ("Sphere GLB generated at: " ++ pathToString output_path)]⟩

/-- Default value of the `radius` parameter of `generate_sphere_glb`. -/
def radius_default : Int := 10

/-- Default value of the `subdivisions` parameter of `generate_sphere_glb`. -/
def subdivisions_default : Nat := 4

/-- `output_dir = "public"` in the `__main__` block. -/
def output_dir : FPath := ["public"]

/-- `output_file = os.path.join(output_dir, "360_sphere.glb")`. -/
def output_file : FPath := output_dir ++ ["360_sphere.glb"]

/-- The first two statements of the `__main__` block:
`if not os.path.exists(output_dir): os.makedirs(output_dir)`. -/
def ensure_output_dir (st : IOState) : IOState :=
  let ex := (fsLookup st.fs output_dir).isSome
  let st1 : IOState := ⟨st.fs, st.events ++ [Event.checkExists output_dir ex]⟩
  if ex then st1
  else ⟨makedirs output_dir st1.fs, st1.events ++ [Event.mkdir output_dir]⟩

/-- The whole `__main__` block: ensure the output directory, then call
`generate_sphere_glb(output_file)` with the default radius and subdivisions. -/
def main_run (st : IOState) : PyResult :=
  generate_sphere_glb output_file radius_default subdivisions_default
    (ensure_output_dir st)

/-- Recognize a `print` event in the trace. -/
def isPrintEvent : Event → Bool
  | Event.print _ => true
  | _ => false

/-- The confirmation line printed on success. -/
def confirmationLine : String :=
  "Sphere GLB generated at: " ++ pathToString output_file

lemma export_glb_raised_state (m : Mesh) (p : FPath) (st : IOState)
    (e : Err) (stE : IOState)
    (h : export_glb m p st = PyResult.raised e stE) : stE = st := by
  unfold export_glb at h
  simp only at h
  split at h
  · cases h
  · split at h
    · cases h
    · injection h with h1 h2
      exact h2.symm
    · injection h with h1 h2
      exact h2.symm

lemma main_run_dir (fs : FS) (evs : List Event)
    (h : fsLookup fs output_dir = some Entry.dir) :
    main_run ⟨fs, evs⟩ =
      PyResult.ok ⟨(output_file, Entry.file (uv_sphere radius_default 64 64)) :: fs,
        evs ++ [Event.checkExists output_dir true,
                Event.exportFile output_file,
                Event.print confirmationLine]⟩ := by
  have h' : fsLookup fs ["public"] = some Entry.dir := h
  unfold main_run generate_sphere_glb export_glb ensure_output_dir
  simp [h', output_file, output_dir, radius_default, subdivisions_default,
    uv_sphere, confirmationLine, List.dropLast, fsLookup]

lemma main_run_absent (fs : FS) (evs : List Event)
    (h : fsLookup fs output_dir = none) :
    main_run ⟨fs, evs⟩ =
      PyResult.ok ⟨(output_file, Entry.file (uv_sphere radius_default 64 64)) ::
          (output_dir, Entry.dir) :: fs,
        evs ++ [Event.checkExists output_dir false,
                Event.mkdir output_dir,
                Event.exportFile output_file,
                Event.print confirmationLine]⟩ := by
  have h' : fsLookup fs ["public"] = none := h
  unfold main_run generate_sphere_glb export_glb ensure_output_dir makedirs
  simp [h', output_file, output_dir, radius_default, subdivisions_default,
    uv_sphere, confirmationLine, List.dropLast, fsLookup,
    List.range_succ, List.range_zero]

lemma main_run_nondir (fs : FS) (evs : List Event) (m : Mesh)
    (h : fsLookup fs output_dir = some (Entry.file m)) :
    main_run ⟨fs, evs⟩ =
      PyResult.raised (Err.notADirectory output_dir)
        ⟨fs, evs ++ [Event.checkExists output_dir true]⟩ := by
  have h' : fsLookup fs ["public"] = some (Entry.file m) := h
  unfold main_run generate_sphere_glb export_glb ensure_output_dir
  simp [h', output_file, output_dir, List.dropLast, fsLookup]

/-- C1 (counterexample): calling `generate_sphere_glb` with
`output_path="tmp/unit.glb"` on an empty filesystem (so `tmp/` is absent)
does not create `tmp/`: the run raises `FileNotFoundError` from the export
step and leaves the state unchanged, so neither `tmp/` nor `tmp/unit.glb`
exists afterwards. -/
theorem C1_counterexample :
    generate_sphere_glb ["tmp", "unit.glb"] 1 8 ⟨[], []⟩ =
      PyResult.raised (Err.fileNotFound ["tmp"]) ⟨[], []⟩ := by decide

/-- C1 (amended): `generate_sphere_glb` performs no directory creation at
all; whenever the parent directory of `output_path` is missing (and is not
the current working directory), the export step raises `FileNotFoundError`
and the invocation returns with the state unchanged.  Directory creation
happens only in the `__main__` block, and only for `public`. -/
theorem C1_generator_creates_no_directory (output_path : FPath) (radius : Int)
    (subdivisions : Nat) (st : IOState)
    (h1 : output_path.dropLast ≠ [])
    (h2 : fsLookup st.fs output_path.dropLast = none) :
    generate_sphere_glb output_path radius subdivisions st =
      PyResult.raised (Err.fileNotFound output_path.dropLast) st := by
  unfold generate_sphere_glb export_glb
  simp [h1, h2]

/-- Witness for C1 (amended) at `output_path = tmp/unit.glb` on the empty
filesystem. -/
theorem C1_generator_creates_no_directory_witness :
    (["tmp", "unit.glb"] : FPath).dropLast ≠ [] ∧
    generate_sphere_glb ["tmp", "unit.glb"] 1 8 ⟨[], []⟩ =
      PyResult.raised (Err.fileNotFound (["tmp", "unit.glb"] : FPath).dropLast) ⟨[], []⟩ :=
  ⟨by decide,
   C1_generator_creates_no_directory ["tmp", "unit.glb"] 1 8 ⟨[], []⟩
     (by decide) (by decide)⟩

/-- C2 (code evaluated at the failing input): two invocations of
`generate_sphere_glb` that differ only in `subdivisions` (8 versus 4)
produce identical results, because the geometry library is always called
with the fixed `count=[64, 64]`; so raising `subdivisions` does not
increase the vertex or face count, contrary to the code's own comment
("Using subdivisions to get a smooth sphere") and the spec. -/
theorem C2_subdivisions_do_not_increase_counts :
    generate_sphere_glb ["tmp", "unit.glb"] 10 8 ⟨[(["tmp"], Entry.dir)], []⟩ =
      generate_sphere_glb ["tmp", "unit.glb"] 10 4 ⟨[(["tmp"], Entry.dir)], []⟩ ∧
    (uv_sphere 10 64 64).vertexCount = (uv_sphere 10 64 64).vertexCount :=
  ⟨rfl, rfl⟩

/-- C4: the compiled-in defaults are exactly `radius=10`,
`subdivisions=4`, resolution `count=[64, 64]`, and output path
`public/360_sphere.glb`; any successful run of the `__main__` block writes
the mesh `uv_sphere(10, count=[64, 64])` at exactly that path. -/
theorem C4_compiled_in_defaults (st st' : IOState)
    (h : main_run st = PyResult.ok st') :
    radius_default = 10 ∧ subdivisions_default = 4 ∧
    output_file = ["public", "360_sphere.glb"] ∧
    fsLookup st'.fs ["public", "360_sphere.glb"] =
      some (Entry.file (uv_sphere 10 64 64)) := by
  refine ⟨rfl, rfl, rfl, ?_⟩
  have hst : st = ⟨st.fs, st.events⟩ := rfl
  rcases hfs : fsLookup st.fs output_dir with _ | e
  · rw [hst, main_run_absent st.fs st.events hfs] at h
    injection h with h1
    rw [← h1]
    simp [fsLookup, output_file, output_dir, radius_default]
  · cases e with
    | dir =>
        rw [hst, main_run_dir st.fs st.events hfs] at h
        injection h with h1
        rw [← h1]
        simp [fsLookup, output_file, output_dir, radius_default]
    | file m =>
        rw [hst, main_run_nondir st.fs st.events m hfs] at h
        cases h

/-- Witness for C4: the run from the empty filesystem succeeds and exhibits
the compiled-in defaults. -/
theorem C4_compiled_in_defaults_witness :
    radius_default = 10 ∧ subdivisions_default = 4 ∧
    output_file = ["public", "360_sphere.glb"] ∧
    fsLookup [(["public", "360_sphere.glb"], Entry.file (uv_sphere 10 64 64)),
              (["public"], Entry.dir)] ["public", "360_sphere.glb"] =
      some (Entry.file (uv_sphere 10 64 64)) :=
  C4_compiled_in_defaults ⟨[], []⟩
    ⟨[(["public", "360_sphere.glb"], Entry.file (uv_sphere 10 64 64)),
      (["public"], Entry.dir)],
     [Event.checkExists ["public"] false, Event.mkdir ["public"],
      Event.exportFile ["public", "360_sphere.glb"],
      Event.print "Sphere GLB generated at: public/360_sphere.glb"]⟩
    (by decide)

/-- C5: every successful run of the `__main__` block performs exactly one
export event, at exactly the requested path `public/360_sphere.glb`, and the
existence check (and the directory creation, when it happens) precedes the
export in the trace: the trace is one of the two listed forms. -/
theorem C5_one_export_after_dir_check (fs : FS) (st' : IOState)
    (h : main_run ⟨fs, []⟩ = PyResult.ok st') :
    st'.events = [Event.checkExists output_dir true,
                  Event.exportFile output_file,
                  Event.print confirmationLine] ∨
    st'.events = [Event.checkExists output_dir false, Event.mkdir output_dir,
                  Event.exportFile output_file,
                  Event.print confirmationLine] := by
  rcases hfs : fsLookup fs output_dir with _ | e
  · right
    rw [main_run_absent fs [] hfs] at h
    injection h with h1
    rw [← h1]
    rfl
  · cases e with
    | dir =>
        left
        rw [main_run_dir fs [] hfs] at h
        injection h with h1
        rw [← h1]
        rfl
    | file m =>
        rw [main_run_nondir fs [] m hfs] at h
        cases h

/-- Witness for C5 on the empty filesystem. -/
theorem C5_one_export_after_dir_check_witness :
    ([Event.checkExists ["public"] false, Event.mkdir ["public"],
      Event.exportFile ["public", "360_sphere.glb"],
      Event.print "Sphere GLB generated at: public/360_sphere.glb"]
        = [Event.checkExists output_dir true,
           Event.exportFile output_file,
           Event.print confirmationLine] ∨
     [Event.checkExists ["public"] false, Event.mkdir ["public"],
      Event.exportFile ["public", "360_sphere.glb"],
      Event.print "Sphere GLB generated at: public/360_sphere.glb"]
        = [Event.checkExists output_dir false, Event.mkdir output_dir,
           Event.exportFile output_file,
           Event.print confirmationLine]) :=
  C5_one_export_after_dir_check []
    ⟨[(["public", "360_sphere.glb"], Entry.file (uv_sphere 10 64 64)),
      (["public"], Entry.dir)],
     [Event.checkExists ["public"] false, Event.mkdir ["public"],
      Event.exportFile ["public", "360_sphere.glb"],
      Event.print "Sphere GLB generated at: public/360_sphere.glb"]⟩
    (by decide)

/-- C6: directory creation is idempotent.  When `public` already exists as a
directory, the run raises no error, performs no `mkdir` (the trace contains
none), and writes the same asset (the mesh `uv_sphere(10, count=[64, 64])`
at `public/360_sphere.glb`) as a run in which the directory had to be
created (second conjunct). -/
theorem C6_idempotent_directory (fs : FS)
    (h : fsLookup fs output_dir = some Entry.dir) :
    main_run ⟨fs, []⟩ =
      PyResult.ok ⟨(output_file, Entry.file (uv_sphere radius_default 64 64)) :: fs,
        [Event.checkExists output_dir true, Event.exportFile output_file,
         Event.print confirmationLine]⟩ ∧
    (∀ fs2, fsLookup fs2 output_dir = none →
      main_run ⟨fs2, []⟩ =
        PyResult.ok ⟨(output_file, Entry.file (uv_sphere radius_default 64 64)) ::
            (output_dir, Entry.dir) :: fs2,
          [Event.checkExists output_dir false, Event.mkdir output_dir,
           Event.exportFile output_file, Event.print confirmationLine]⟩) := by
  constructor
  · simpa using main_run_dir fs [] h
  · intro fs2 h2
    simpa using main_run_absent fs2 [] h2

/-- Witness for C6 with the directory present, compared against the run from
the empty filesystem. -/
theorem C6_idempotent_directory_witness :
    main_run ⟨[(["public"], Entry.dir)], []⟩ =
      PyResult.ok ⟨(output_file, Entry.file (uv_sphere radius_default 64 64)) ::
          [(["public"], Entry.dir)],
        [Event.checkExists output_dir true, Event.exportFile output_file,
         Event.print confirmationLine]⟩ ∧
    main_run ⟨[], []⟩ =
      PyResult.ok ⟨[(output_file, Entry.file (uv_sphere radius_default 64 64)),
          (output_dir, Entry.dir)],
        [Event.checkExists output_dir false, Event.mkdir output_dir,
         Event.exportFile output_file, Event.print confirmationLine]⟩ :=
  ⟨(C6_idempotent_directory [(["public"], Entry.dir)] (by decide)).1,
   (C6_idempotent_directory [(["public"], Entry.dir)] (by decide)).2 [] (by decide)⟩

/-- C7: the program is fail-fast with no handler.  If the export step raises
an error, the whole run returns exactly that error with exactly the state at
the raise point (nothing is caught, retried, or recovered), and the trace
gains no `print` event: there is no program-generated message on the error
path. -/
theorem C7_fail_fast (st : IOState) (e : Err) (stE : IOState)
    (h : export_glb (uv_sphere radius_default 64 64) output_file
           (ensure_output_dir st) = PyResult.raised e stE) :
    main_run st = PyResult.raised e stE ∧
    stE.events.filter isPrintEvent = st.events.filter isPrintEvent := by
  have hst : stE = ensure_output_dir st := export_glb_raised_state _ _ _ _ _ h
  constructor
  · simp only [main_run, generate_sphere_glb]
    rw [h]
  · rw [hst]
    unfold ensure_output_dir
    by_cases hex : (fsLookup st.fs output_dir).isSome
    · simp [hex, isPrintEvent, List.filter_append]
    · simp [hex, isPrintEvent, List.filter_append]

/-- Witness for C7: `public` present as a regular file makes the export step
raise `NotADirectoryError`, which propagates unchanged with no print. -/
theorem C7_fail_fast_witness :
    main_run ⟨[(["public"], Entry.file (uv_sphere 0 0 0))], []⟩ =
      PyResult.raised (Err.notADirectory ["public"])
        ⟨[(["public"], Entry.file (uv_sphere 0 0 0))],
         [Event.checkExists ["public"] true]⟩ ∧
    ([Event.checkExists ["public"] true].filter isPrintEvent =
      ([] : List Event).filter isPrintEvent) :=
  C7_fail_fast ⟨[(["public"], Entry.file (uv_sphere 0 0 0))], []⟩
    (Err.notADirectory ["public"])
    ⟨[(["public"], Entry.file (uv_sphere 0 0 0))],
     [Event.checkExists ["public"] true]⟩
    (by decide)

/-- C8: on every successful run the trace contains exactly one `print`
event; it is the last event, its text is the confirmation line naming the
written path, and it is immediately preceded by the export event (so it is
emitted only after serialization completed).  If the run raises, no `print`
event is ever emitted. -/
theorem C8_confirmation_line (fs : FS) (st' : IOState) (e : Err) :
    (main_run ⟨fs, []⟩ = PyResult.ok st' →
       st'.events.countP isPrintEvent = 1 ∧
       st'.events.getLast? = some (Event.print confirmationLine) ∧
       st'.events.dropLast.getLast? = some (Event.exportFile output_file)) ∧
    (main_run ⟨fs, []⟩ = PyResult.raised e st' →
       st'.events.countP isPrintEvent = 0) := by
  rcases hfs : fsLookup fs output_dir with _ | e'
  · constructor
    · intro h
      rw [main_run_absent fs [] hfs] at h
      injection h with h1
      rw [← h1]
      exact ⟨rfl, rfl, rfl⟩
    · intro h
      rw [main_run_absent fs [] hfs] at h
      cases h
  · cases e' with
    | dir =>
        constructor
        · intro h
          rw [main_run_dir fs [] hfs] at h
          injection h with h1
          rw [← h1]
          exact ⟨rfl, rfl, rfl⟩
        · intro h
          rw [main_run_dir fs [] hfs] at h
          cases h
    | file m =>
        constructor
        · intro h
          rw [main_run_nondir fs [] m hfs] at h
          cases h
        · intro h
          rw [main_run_nondir fs [] m hfs] at h
          injection h with h1 h2
          rw [← h2]
          rfl

/-- Witness for C8 on the empty filesystem (success branch). -/
theorem C8_confirmation_line_witness :
    ([Event.checkExists ["public"] false, Event.mkdir ["public"],
      Event.exportFile ["public", "360_sphere.glb"],
      Event.print "Sphere GLB generated at: public/360_sphere.glb"].countP
        isPrintEvent = 1 ∧
     [Event.checkExists ["public"] false, Event.mkdir ["public"],
      Event.exportFile ["public", "360_sphere.glb"],
      Event.print "Sphere GLB generated at: public/360_sphere.glb"].getLast?
        = some (Event.print confirmationLine) ∧
     [Event.checkExists ["public"] false, Event.mkdir ["public"],
      Event.exportFile ["public", "360_sphere.glb"],
      Event.print "Sphere GLB generated at: public/360_sphere.glb"].dropLast.getLast?
        = some (Event.exportFile output_file)) :=
  (C8_confirmation_line []
    ⟨[(["public", "360_sphere.glb"], Entry.file (uv_sphere 10 64 64)),
      (["public"], Entry.dir)],
     [Event.checkExists ["public"] false, Event.mkdir ["public"],
      Event.exportFile ["public", "360_sphere.glb"],
      Event.print "Sphere GLB generated at: public/360_sphere.glb"]⟩
    (Err.fileNotFound [])).1 (by decide)

/-- C10: the `__main__` check is `os.path.exists`, not an is-directory test:
`makedirs` is attempted iff no entry named `public` exists (second
conjunct); consequently, when `public` exists as a regular file, no
directory is created, the run proceeds to the export step, and the export
raises `NotADirectoryError` — the pre-write invariant is not established. -/
theorem C10_existence_check_not_directory_check (fs fs2 : FS) (m : Mesh)
    (h : fsLookup fs output_dir = some (Entry.file m)) :
    main_run ⟨fs, []⟩ =
      PyResult.raised (Err.notADirectory output_dir)
        ⟨fs, [Event.checkExists output_dir true]⟩ ∧
    (Event.mkdir output_dir ∈ (ensure_output_dir ⟨fs2, []⟩).events ↔
       fsLookup fs2 output_dir = none) := by
  constructor
  · simpa using main_run_nondir fs [] m h
  · unfold ensure_output_dir
    rcases hfs2 : fsLookup fs2 output_dir with _ | e2
    · simp [hfs2]
    · simp [hfs2]

/-- Witness for C10 with `public` present as a regular file, and the
`makedirs`-iff-absent reading checked on the empty filesystem. -/
theorem C10_existence_check_not_directory_check_witness :
    main_run ⟨[(["public"], Entry.file (uv_sphere 1 2 3))], []⟩ =
      PyResult.raised (Err.notADirectory output_dir)
        ⟨[(["public"], Entry.file (uv_sphere 1 2 3))],
         [Event.checkExists output_dir true]⟩ ∧
    (Event.mkdir output_dir ∈ (ensure_output_dir ⟨[], []⟩).events ↔
       fsLookup [] output_dir = none) :=
  C10_existence_check_not_directory_check
    [(["public"], Entry.file (uv_sphere 1 2 3))] [] (uv_sphere 1 2 3)
    (by decide)

/-- C3: the `subdivisions` argument of `generate_sphere_glb` has no influence
on the run: the geometry library is always called with the fixed `count=[64, 64]`,
so two invocations differing only in `subdivisions` return identical results
(state and trace alike). -/
theorem C3_subdivisions_noninterference (output_path : FPath) (radius : Int)
    (s1 s2 : Nat) (st : IOState) :
    generate_sphere_glb output_path radius s1 st =
      generate_sphere_glb output_path radius s2 st := rfl

/-- C9: the generator is deterministic; the vertex and face counts of the
constructed mesh are functions of the two resolution parameters alone (in
particular they do not depend on the radius), so equal resolutions yield
equal mesh sizes across runs. -/
theorem C9_deterministic_counts (r1 r2 : Int) (c0 c1 : Nat) :
    (uv_sphere r1 c0 c1).vertexCount = (uv_sphere r2 c0 c1).vertexCount ∧
    (uv_sphere r1 c0 c1).faceCount = (uv_sphere r2 c0 c1).faceCount :=
  ⟨rfl, rfl⟩
